import Mathlib

/-!
# Verification of the book-proposal conversation planner

This file is a shallow embedding, in Lean 4, of the proposal-gathering
conversation flow of the `book-agent` repository:

* the pure helpers of `lib/proposalFlow.ts` (`extractQAPairs`,
  `buildQuestionMessage`, `buildPlannerPrompt`, `buildSummaryPrompt`);
* the planner / summary / send-message handlers of the chat page
  (`askPlannerNext`, `askProposalSummary`, `handleSendMessage`), modelled as
  pure state-transition functions that also emit the trace of their external
  effects (message inserts, state persistence, generation-service calls,
  alerts); the generation service is an oracle argument
  (`Except Unit String`: `.error` models a thrown transport error).

JavaScript maps (`Record<string, string>`) are modelled as association lists
in property order: for non-integer-like keys such as `q1`, `q2` and
`__seed_pitch`, `Object.entries`, object spread and `JSON.stringify` all
follow property insertion order, which the association list records
faithfully.  `JSON.parse` is modelled by an executable fuel-indexed
recursive-descent parser over the JSON grammar (strings, numbers, literals,
arrays, objects; duplicate object keys collapse last-write-wins at the first
occurrence position, as in JavaScript).  JavaScript string escapes: `trim`
and the regex class `\s` are modelled on their ASCII part; `String.slice`
counts UTF-16 code units while Lean's `String.take` counts characters — the
two agree on all non-astral text, which covers every string the flow
produces.  JS number-to-string conversion is approximated for non-integral
numbers; no theorem below depends on it.
-/

namespace BookAgent

/-- The backtick character (0x60), kept out of character-literal position. -/
def btick : Char := Char.ofNat 96

/-- Left brace (0x7b). -/
def lbrace : Char := Char.ofNat 123

/-- Right brace (0x7d). -/
def rbrace : Char := Char.ofNat 125

/-- ASCII whitespace as recognised by JavaScript's `trim` and the regex
class `\s`: space, tab, line feed, carriage return, vertical tab, form feed. -/
def isJsWs (c : Char) : Bool :=
  c = ' ' || c = '\t' || c = '\n' || c = '\r' || c = Char.ofNat 11 || c = Char.ofNat 12

/-- Drop leading and trailing JS whitespace from a character list. -/
def trimList (l : List Char) : List Char :=
  ((l.dropWhile isJsWs).reverse.dropWhile isJsWs).reverse

/-- Model of JavaScript `String.prototype.trim` (ASCII whitespace). -/
def jsTrim (s : String) : String := String.mk (trimList s.data)

/-! ## JSON values and `JSON.parse` -/

/-- JSON values.  Numbers are kept as `mantissa × 10 ^ exponent` with an
integer mantissa, which represents every JSON numeral exactly. -/
inductive Json where
  | null : Json
  | bool (b : Bool) : Json
  | num (m : Int) (e : Int) : Json
  | str (s : String) : Json
  | arr (elems : List Json) : Json
  | obj (fields : List (String × Json)) : Json

/-- Set `k` to `v` in an association list: overwrite in place when the key
is present (JavaScript object spread and assignment keep the original
property position), append otherwise.  JavaScript objects never hold a key
twice, so replacing the first occurrence models the property write
exactly. -/
def alistSet {α : Type} : List (String × α) → String → α → List (String × α)
  | [], k, v => [(k, v)]
  | p :: t, k, v => if p.1 == k then (k, v) :: t else p :: alistSet t k v

/-- Property access `j.k` on a parsed JSON value: defined only on objects,
`none` models JavaScript's `undefined`. -/
def Json.getField (j : Json) (k : String) : Option Json :=
  match j with
  | .obj fields => (fields.find? (fun p => p.1 == k)).map (·.2)
  | _ => none

/-- JavaScript truthiness of a parsed JSON value (`NaN` is not producible by
`JSON.parse`). -/
def Json.truthy : Json → Bool
  | .null => false
  | .bool b => b
  | .num m _ => !(m == 0)
  | .str s => !(s == "")
  | .arr _ => true
  | .obj _ => true

/-- `typeof j === 'object'` for a parsed JSON value. -/
def Json.isObjLike : Json → Bool
  | .obj _ => true
  | .arr _ => true
  | .null => true
  | _ => false

mutual

/-- JavaScript `String(j)` conversion of a parsed JSON value.  For arrays,
`Array.prototype.toString` joins element conversions with commas, rendering
`null` as the empty string.  Non-integral numbers are approximated with an
explicit exponent; no theorem in this file depends on number formatting. -/
def Json.jsToString : Json → String
  | .null => "null"
  | .bool true => "true"
  | .bool false => "false"
  | .num m e =>
      if e = 0 then toString m
      else if 0 < e then toString (m * (10 : Int) ^ e.toNat)
      else toString m ++ "e" ++ toString e
  | .str s => s
  | .arr elems => String.intercalate "," (Json.jsToStringList elems)
  | .obj _ => "[object Object]"

/-- Element-wise `String` conversion for `Array.prototype.toString`. -/
def Json.jsToStringList : List Json → List String
  | [] => []
  | Json.null :: js => "" :: Json.jsToStringList js
  | j :: js => Json.jsToString j :: Json.jsToStringList js

end

/-- Value of a hexadecimal digit. -/
def hexVal (c : Char) : Option Nat :=
  if '0' ≤ c ∧ c ≤ '9' then some (c.toNat - 48)
  else if 'a' ≤ c ∧ c ≤ 'f' then some (c.toNat - 87)
  else if 'A' ≤ c ∧ c ≤ 'F' then some (c.toNat - 55)
  else none

/-- Parse the body of a JSON string (after the opening quote), returning the
decoded characters and the input after the closing quote.  Exactly the JSON
escape set is accepted; raw control characters are rejected, as in
`JSON.parse`. -/
def parseStrChars : List Char → Option (List Char × List Char)
  | [] => none
  | c :: cs =>
    if c = '"' then some ([], cs)
    else if c = '\\' then
      match cs with
      | [] => none
      | e :: cs' =>
        if e = '"' ∨ e = '\\' ∨ e = '/' then
          (parseStrChars cs').map (fun p => (e :: p.1, p.2))
        else if e = 'b' then (parseStrChars cs').map (fun p => (Char.ofNat 8 :: p.1, p.2))
        else if e = 'f' then (parseStrChars cs').map (fun p => (Char.ofNat 12 :: p.1, p.2))
        else if e = 'n' then (parseStrChars cs').map (fun p => ('\n' :: p.1, p.2))
        else if e = 'r' then (parseStrChars cs').map (fun p => ('\r' :: p.1, p.2))
        else if e = 't' then (parseStrChars cs').map (fun p => ('\t' :: p.1, p.2))
        else if e = 'u' then
          match cs' with
          | a :: b :: c2 :: d :: cs'' =>
            match hexVal a, hexVal b, hexVal c2, hexVal d with
            | some ha, some hb, some hc, some hd =>
              (parseStrChars cs'').map (fun p =>
                (Char.ofNat (((ha * 16 + hb) * 16 + hc) * 16 + hd) :: p.1, p.2))
            | _, _, _, _ => none
          | _ => none
        else none
    else if c.toNat < 32 then none
    else (parseStrChars cs).map (fun p => (c :: p.1, p.2))

/-- Decimal value of a digit list. -/
def digitsToNat (l : List Char) : Nat :=
  l.foldl (fun a c => a * 10 + (c.toNat - 48)) 0

/-- Parse a JSON numeral (strict JSON grammar: no leading zeros, fraction and
exponent digits mandatory when the marker is present). -/
def parseNumber (cs : List Char) : Option (Json × List Char) :=
  let (neg, cs1) :=
    match cs with
    | '-' :: r => (true, r)
    | _ => (false, cs)
  let ds := cs1.takeWhile Char.isDigit
  let cs2 := cs1.dropWhile Char.isDigit
  if ds.isEmpty then none
  else if ds.head? = some '0' ∧ ds.length > 1 then none
  else
    let (fds, cs3) :=
      match cs2 with
      | '.' :: r => (r.takeWhile Char.isDigit, r.dropWhile Char.isDigit)
      | _ => ([], cs2)
    if (match cs2 with | '.' :: _ => fds.isEmpty | _ => false) then none
    else
      let (eok, esign, eds, cs4) :=
        match cs3 with
        | 'e' :: '+' :: r => (!(r.takeWhile Char.isDigit).isEmpty, (1 : Int), r.takeWhile Char.isDigit, r.dropWhile Char.isDigit)
        | 'e' :: '-' :: r => (!(r.takeWhile Char.isDigit).isEmpty, (-1 : Int), r.takeWhile Char.isDigit, r.dropWhile Char.isDigit)
        | 'e' :: r => (!(r.takeWhile Char.isDigit).isEmpty, (1 : Int), r.takeWhile Char.isDigit, r.dropWhile Char.isDigit)
        | 'E' :: '+' :: r => (!(r.takeWhile Char.isDigit).isEmpty, (1 : Int), r.takeWhile Char.isDigit, r.dropWhile Char.isDigit)
        | 'E' :: '-' :: r => (!(r.takeWhile Char.isDigit).isEmpty, (-1 : Int), r.takeWhile Char.isDigit, r.dropWhile Char.isDigit)
        | 'E' :: r => (!(r.takeWhile Char.isDigit).isEmpty, (1 : Int), r.takeWhile Char.isDigit, r.dropWhile Char.isDigit)
        | _ => (true, (1 : Int), ([] : List Char), cs3)
      if !eok then none
      else
        let mant : Int := Int.ofNat (digitsToNat (ds ++ fds))
        let mant := if neg then -mant else mant
        let expo : Int := esign * Int.ofNat (digitsToNat eds) - Int.ofNat fds.length
        some (.num mant expo, cs4)

/-- Collapse raw object members into JavaScript property order: duplicate
keys keep the first position and the last value. -/
def collapseFields (ps : List (String × Json)) : List (String × Json) :=
  ps.foldl (fun acc p => alistSet acc p.1 p.2) []

mutual

/-- Fuel-indexed recursive-descent parser for one JSON value.  The fuel only
bounds recursion depth; every recursive call consumes input, so any fuel of
at least twice the input length is enough. -/
def parseVal : Nat → List Char → Option (Json × List Char)
  | 0, _ => none
  | fuel + 1, cs =>
    match cs.dropWhile isJsWs with
    | [] => none
    | c :: cs' =>
      if c = 'n' then
        match cs' with
        | 'u' :: 'l' :: 'l' :: r => some (.null, r)
        | _ => none
      else if c = 't' then
        match cs' with
        | 'r' :: 'u' :: 'e' :: r => some (.bool true, r)
        | _ => none
      else if c = 'f' then
        match cs' with
        | 'a' :: 'l' :: 's' :: 'e' :: r => some (.bool false, r)
        | _ => none
      else if c = '"' then
        (parseStrChars cs').map (fun p => (.str (String.mk p.1), p.2))
      else if c = '[' then
        match cs'.dropWhile isJsWs with
        | ']' :: r => some (.arr [], r)
        | _ =>
          match parseElems fuel cs' with
          | some (es, r) => some (.arr es, r)
          | none => none
      else if c = lbrace then
        match cs'.dropWhile isJsWs with
        | r₀ :: r =>
          if r₀ = rbrace then some (.obj [], r)
          else
            match parseMembers fuel cs' with
            | some (ps, r') => some (.obj (collapseFields ps), r')
            | none => none
        | [] => none
      else parseNumber (c :: cs')

/-- Comma-separated array elements up to the closing bracket. -/
def parseElems : Nat → List Char → Option (List Json × List Char)
  | 0, _ => none
  | fuel + 1, cs =>
    match parseVal fuel cs with
    | none => none
    | some (j, r) =>
      match r.dropWhile isJsWs with
      | ',' :: r' => (parseElems fuel r').map (fun p => (j :: p.1, p.2))
      | ']' :: r' => some ([j], r')
      | _ => none

/-- Comma-separated object members up to the closing brace. -/
def parseMembers : Nat → List Char → Option (List (String × Json) × List Char)
  | 0, _ => none
  | fuel + 1, cs =>
    match cs.dropWhile isJsWs with
    | k₀ :: cs' =>
      if k₀ = '"' then
        match parseStrChars cs' with
        | none => none
        | some (kchars, r1) =>
          match r1.dropWhile isJsWs with
          | ':' :: r2 =>
            match parseVal fuel r2 with
            | none => none
            | some (v, r3) =>
              match r3.dropWhile isJsWs with
              | ',' :: r4 =>
                (parseMembers fuel r4).map (fun p =>
                  ((String.mk kchars, v) :: p.1, p.2))
              | r₅ :: r' =>
                if r₅ = rbrace then some ([(String.mk kchars, v)], r')
                else none
              | [] => none
          | _ => none
      else none
    | [] => none

end

/-- Model of `JSON.parse`: one JSON value surrounded by optional whitespace;
anything else (including the empty string) fails. -/
def parseJson (s : String) : Option Json :=
  match parseVal (2 * s.data.length + 4) s.data with
  | some (j, rest) => if (rest.dropWhile isJsWs).isEmpty then some j else none
  | none => none

/-- `JSON.stringify` escaping for one character. -/
def jsonEscapeChar (c : Char) : String :=
  if c = '"' then "\\\""
  else if c = '\\' then "\\\\"
  else if c = '\n' then "\\n"
  else if c = '\r' then "\\r"
  else if c = '\t' then "\\t"
  else if c = Char.ofNat 8 then "\\b"
  else if c = Char.ofNat 12 then "\\f"
  else if c.toNat < 32 then
    "\\u00" ++ String.mk [if c.toNat < 16 then '0' else '1',
      (Nat.digitChar (c.toNat % 16))]
  else String.singleton c

/-- `JSON.stringify` of a string. -/
def jsonQuote (s : String) : String :=
  "\"" ++ String.join (s.data.map jsonEscapeChar) ++ "\""

/-- `JSON.stringify({ question, answer })` exactly as produced by
`handleSendMessage` when storing an answer: two properties in insertion
order, no added whitespace. -/
def stringifyQA (question answer : String) : String :=
  "\x7b" ++ jsonQuote "question" ++ ":" ++ jsonQuote question ++ "," ++
    jsonQuote "answer" ++ ":" ++ jsonQuote answer ++ "\x7d"

/-! ## `lib/proposalFlow.ts` — the pure flow helpers -/

/-- `ProposalAnswerMap = Record<string, string>`, in property order. -/
abbrev ProposalAnswerMap := List (String × String)

/-- Property read `m[k]`; `none` is JavaScript's `undefined`. -/
def mapGet (m : ProposalAnswerMap) (k : String) : Option String :=
  (m.find? (fun p => p.1 == k)).map (·.2)

/-- The reserved key holding the author's initial free-text pitch. -/
def SEED_ANSWER_KEY : String := "__seed_pitch"

/-- The advisory topic hints embedded in the planner prompt. -/
def PROPOSAL_HINTS : List String := [
  "読者像（想定読者・非想定読者・読むシーン・読み方）",
  "コアメッセージ（最重要メッセージ・動機・著者が書く理由・一言要約）",
  "メインポイント（3点程度：主張・根拠・経験・NG/注意・裏付け）",
  "追加ポイント（あればもう1点）",
  "比較・賛否（共感する他者の方法／異なる方法・長所短所）",
  "エクストラ（興味が薄い層へのフック・必要習慣/アイテム・読後の姿・文体トーン・画像の要否・著者写真）",
  "章立て骨子（序章～）",
  "著者情報・補足事項"]

/-- The fixed welcome message of the proposal thread. -/
def WELCOME_TEXT : String :=
  "はじめにこれから作る本の企画書を作りましょう。下の入力欄から作成したい本について書いてみて下さい！"

/-- The placeholder question label used when a stored answer value is not a
well-formed question/answer record. -/
def UNKNOWN_QUESTION : String := "(質問テキスト不明)"

/-- One extracted question/answer pair. -/
structure QAPair where
  question : String
  answer : String
deriving DecidableEq, Repr

/-- The guarded parse of one stored answer value, following
`extractQAPairs`: `JSON.parse(v)` must succeed, the result must be truthy
and of `typeof 'object'`, and its `question` and `answer` properties must
both be truthy. -/
def parsedQA (v : String) : Option (Json × Json) :=
  match parseJson v with
  | some j =>
    if j.truthy && j.isObjLike then
      match j.getField "question", j.getField "answer" with
      | some q, some a => if q.truthy && a.truthy then some (q, a) else none
      | _, _ => none
    else none
  | none => none

/-- Extraction of one stored value: the structured record when the guarded
parse succeeds, otherwise the raw string under the placeholder label. -/
def extractOne (v : String) : QAPair :=
  match parsedQA v with
  | some (q, a) => ⟨q.jsToString, a.jsToString⟩
  | none => ⟨UNKNOWN_QUESTION, v⟩

/-- `extractQAPairs`: one pair per entry of the map, in entry order,
skipping the reserved seed key. -/
def extractQAPairs (answers : ProposalAnswerMap) : List QAPair :=
  answers.filterMap (fun kv =>
    if kv.1 == SEED_ANSWER_KEY then none else some (extractOne kv.2))

/-- `buildQuestionMessage`: the `【質問】` line followed by at most two
`・`-prefixed follow-up lines. -/
def buildQuestionMessage (main : String) (followups : List String) : String :=
  let lines := ["【質問】" ++ main]
  let lines :=
    if followups.length > 0 then
      lines ++ (followups.take 2).map (fun f => "・" ++ f)
    else lines
  String.intercalate "\n" lines

/-- The numbered transcript lines of the planner prompt
(`Q1: …\nA1: …` per extracted pair). -/
def plannerQaLines (answers : ProposalAnswerMap) : List String :=
  (extractQAPairs answers).mapIdx (fun i p =>
    "Q" ++ toString (i + 1) ++ ": " ++ p.question ++ "\n" ++
      "A" ++ toString (i + 1) ++ ": " ++ p.answer)

/-- `buildPlannerPrompt`: the system instruction asking the generation
service to decide between another question and the summary.  In the source
`maxRounds` is an optional parameter defaulting to 12; every caller passes
`MAX_QA_ROUNDS` (= 12) explicitly. -/
def buildPlannerPrompt (aiNick : String) (answers : ProposalAnswerMap)
    (askedCount : Nat) (maxRounds : Nat) : String :=
  let seed := (mapGet answers SEED_ANSWER_KEY).getD ""
  let qaList := String.intercalate "\n\n" (plannerQaLines answers)
  let hintBullets := String.intercalate "\n" (PROPOSAL_HINTS.map (fun h => "- " ++ h))
  String.intercalate "\n" [
    "あなたは編集者AI「" ++ aiNick ++ "」。単発の“1枚企画書”を作るため、必要最小限の質問で著者から情報を引き出します。",
    "今の収集状況を鑑み、次にすべきことを **JSONのみ** で返してください。",
    "方針:",
    "- 長引かせない。1ターンで主質問1つ＋必要なら補助質問を最大2つまで。",
    "- すでに十分な情報が集まったと判断したら、\"summary\" を選びます。",
    "- 想定する1枚企画書の項目（柔軟に）：背景/読者/提供価値(セールスポイント)/章立て骨子/著者情報/補足。",
    "- 参考ヒント（完全準拠は不要）:\n" ++ hintBullets,
    "",
    "制約:",
    "- 出力は必ず JSON のみ。前後の文章・記号・コードフェンスは禁止。",
    "- 文字数を絞る。説明は \"reason\" に短く。",
    "- 現時点のQ&Aが " ++ toString askedCount ++ " 件。最大でも概ね " ++
      toString maxRounds ++ " ラウンド以内にまとめに進むこと。",
    "",
    "初期ピッチ（著者の最初の入力）:\n" ++ (if seed == "" then "(未入力)" else seed) ++ "\n",
    "これまでのQ&A:\n" ++ (if qaList == "" then "(なし)" else qaList) ++ "\n",
    "返答JSONスキーマ例（どちらか）:",
    "\x7b\"decision\":\"ask\",\"question\":\"想定読者は？\",\"followups\":[\"読むシーンは？\"]\x7d",
    "\x7b\"decision\":\"summary\",\"reason\":\"読者像と主要な価値、章立てが揃ったため\"\x7d"]

/-- The transcript lines of the summary prompt, answers truncated to 1000
characters. -/
def summaryQaLines (answers : ProposalAnswerMap) : List String :=
  (extractQAPairs answers).mapIdx (fun i p =>
    "- Q" ++ toString (i + 1) ++ ": " ++ p.question ++ "\n" ++
      "  A" ++ toString (i + 1) ++ ": " ++ p.answer.take 1000)

/-- `buildSummaryPrompt`: the system instruction asking the generation
service to synthesise the one-page proposal draft from the collected
material. -/
def buildSummaryPrompt (aiNick : String) (answers : ProposalAnswerMap) : String :=
  let seedRaw := (mapGet answers SEED_ANSWER_KEY).getD ""
  let seed := if seedRaw == "" then "" else "- Seed: " ++ seedRaw.take 800
  let qaL := String.intercalate "\n" (summaryQaLines answers)
  String.intercalate "\n" [
    "あなたは編集者AI「" ++ aiNick ++ "」。以下の材料から“1枚企画書”のドラフトを日本語で作成します。",
    "禁止: 事実の創作・未回答の補完。空欄は「（未記入）」と明示。",
    "構成（見出し＋箇条書き中心。必要なら短い1〜2文の補足可）:",
    "- 企画の背景（読者課題/市場感/著者動機）",
    "- セールスポイント（3点）",
    "- 対象読者（想定/非想定・読むシーン/読み方）",
    "- 章立ての骨子（序章〜全体像）",
    "- 著者について（書く理由・強み）",
    "- 補足事項（写真・取材・体裁・今後の研究など）",
    "",
    "材料:",
    seed,
    if qaL == "" then "(Q&Aなし)" else qaL]

/-! ## The planner's reply handling (`askPlannerNext`, chat page) -/

/-- The page-level cap on question/answer rounds (`MAX_QA_ROUNDS`). -/
def MAX_QA_ROUNDS : Nat := 12

/-- The fixed fallback clarifying question substituted when the reply cannot
be parsed as JSON. -/
def FALLBACK_QUESTION : String :=
  "この企画の想定読者をもう少し具体化するためのポイントは？"

/-- Does the list start with three backticks? -/
def isTripleHere : List Char → Bool
  | a :: b :: c :: _ => a == btick && b == btick && c == btick
  | _ => false

/-- Does the list contain three consecutive backticks anywhere? -/
def hasTriple : List Char → Bool
  | [] => false
  | c :: cs => isTripleHere (c :: cs) || hasTriple cs

/-- Does the list continue with the `json` tag (case-insensitively, per the
regex `/i` flag)? -/
def jsonTagHere : List Char → Bool
  | d :: e :: f :: g :: _ =>
    (d == 'j' || d == 'J') && (e == 's' || e == 'S') &&
      (f == 'o' || f == 'O') && (g == 'n' || g == 'N')
  | _ => false

/-- Does the list start with a ```` ```json ```` fence opener? -/
def startsWithJsonFence (l : List Char) : Bool :=
  isTripleHere l && jsonTagHere (l.drop 3)

/-- Characters before the first triple backtick, or `none` when there is no
closing fence (the lazy group of the fence regex). -/
def takeUntilFence : List Char → Option (List Char)
  | [] => none
  | c :: cs =>
    if isTripleHere (c :: cs) then some []
    else (takeUntilFence cs).map (fun l => c :: l)

/-- The capture group of the first successful match of the fence regex
`/```json\s*([\s\S]*?)```/i`: scan for a ```` ```json ```` opener whose
remainder, after greedy whitespace, still contains a closing fence; on
failure try the next start position, as regex backtracking does. -/
def findFenceGroup : List Char → Option (List Char)
  | [] => none
  | c :: cs =>
    if startsWithJsonFence (c :: cs) then
      match takeUntilFence (((c :: cs).drop 7).dropWhile isJsWs) with
      | some content => some content
      | none => findFenceGroup cs
    else findFenceGroup cs

/-- The `jsonStr` computation of `askPlannerNext`: the trimmed fence capture
when the fence regex matches, the trimmed raw reply otherwise. -/
def stripJsonFence (raw : String) : String :=
  match findFenceGroup raw.data with
  | some content => jsTrim (String.mk content)
  | none => jsTrim raw

/-- The planner's two-way decision tag. -/
inductive Decision where
  | ask | summary
deriving DecidableEq, Repr

/-- The local variables `decision`, `question`, `followups` of
`askPlannerNext` after the parsing step. -/
structure PlannerParse where
  decision : Decision
  question : String
  followups : List String
deriving DecidableEq, Repr

/-- `obj?.decision` when it is a string (strict `===` comparison against
`'ask'` / `'summary'` can only succeed on strings). -/
def decisionStr (j : Json) : Option String :=
  match j.getField "decision" with
  | some (.str s) => some s
  | _ => none

/-- `String(obj?.question || '')`. -/
def questionOf (j : Json) : String :=
  match j.getField "question" with
  | some q => if q.truthy then q.jsToString else ""
  | none => ""

/-- `obj.followups.filter(Boolean).map(String).slice(0, 2)` when
`obj?.followups` is an array, `[]` otherwise. -/
def followupsOf (j : Json) : List String :=
  match j.getField "followups" with
  | some (.arr xs) => ((xs.filter Json.truthy).map Json.jsToString).take 2
  | _ => []

/-- The parsing step of `askPlannerNext`: strip a ```` ```json ```` fence,
`JSON.parse`, then branch on the `decision` field; a parse exception is
caught and replaced by the fixed fallback question. -/
def parsePlannerReply (raw : String) : PlannerParse :=
  let jsonStr := stripJsonFence raw
  match parseJson jsonStr with
  | none => ⟨.ask, FALLBACK_QUESTION, []⟩
  | some obj =>
    if decisionStr obj == some "summary" then ⟨.summary, "", []⟩
    else if decisionStr obj == some "ask" then
      ⟨.ask, questionOf obj, followupsOf obj⟩
    else ⟨.ask, "", []⟩

/-! ## The stateful conversation loop

The page component's state and external collaborators, for one thread:
the message log, the persisted `proposal_state` row, the in-memory answer
map / round counter / pending-question text.  Each handler returns the new
state, the ordered trace of its externally visible effects, and its
result; a generation-service call is an oracle argument of type
`Except Unit String` whose `.error` case models a thrown transport error
(a rejected `fetch` / `res.json()`).  UI-only guards of
`handleSendMessage` (`isComposing`, `isSending`, missing thread,
dependency gating) and the best-effort `sessionStorage` mirror are outside
the model. -/

/-- One chat message row. -/
structure Msg where
  role : String
  content : String
deriving DecidableEq, Repr

/-- The page state relevant to the proposal flow. -/
structure AppState where
  messages : List Msg
  store : Option (Nat × ProposalAnswerMap)
  proposalAnswers : ProposalAnswerMap
  askedCount : Nat
  pendingQ : Option String
deriving DecidableEq, Repr

/-- Externally visible effects, in program order. -/
inductive Ev where
  | genCall (prompt : String)
  | insertMsg (role content : String)
  | persist (count : Nat) (answers : ProposalAnswerMap)
  | alert (notice : String)
deriving DecidableEq, Repr

/-- The string results `'asked'` / `'summarized'` of `askPlannerNext`. -/
inductive PlanResult where
  | asked | summarized
deriving DecidableEq, Repr

/-- Whether the turn completed or was caught by the failure handler. -/
inductive TurnOutcome where
  | ok | failed
deriving DecidableEq, Repr

/-- The assistant message posted when the summary call resolves with empty
content. -/
def SUMMARY_FAILURE_TEXT : String := "（ドラフト生成に失敗しました）"

/-- The alert text of `handleSendMessage`'s failure handler. -/
def SEND_FAILURE_ALERT : String := "AI応答の取得に失敗しました"

/-- `saveProposalState`: upsert the `(counter, answers)` pair for the
thread. -/
def saveProposalState (st : AppState) (count : Nat)
    (answers : ProposalAnswerMap) : AppState :=
  { st with store := some (count, answers) }

/-- `askProposalSummary`: render the summary prompt, call the generation
service, post the reply (or the fixed failure text when the reply is empty)
as an assistant message.  A service error propagates as an exception before
anything is posted. -/
def askProposalSummary (st : AppState) (aiNick : String)
    (answers : ProposalAnswerMap) (svc : Except Unit String) :
    AppState × List Ev × Except Unit Unit :=
  let system := buildSummaryPrompt aiNick answers
  match svc with
  | .error e => (st, [.genCall system], .error e)
  | .ok reply =>
    let content := if reply == "" then SUMMARY_FAILURE_TEXT else reply
    ({ st with messages := st.messages ++ [⟨"assistant", content⟩] },
      [.genCall system, .insertMsg "assistant" content], .ok ())

/-- `askPlannerNext`: render the planner prompt, call the generation
service, parse its reply, then either run the summary step (when the parsed
decision is `summary` or the completed-round count has reached
`MAX_QA_ROUNDS`) or post the formatted question and record the new pending
question (`question || null`). -/
def askPlannerNext (st : AppState) (aiNick : String)
    (answers : ProposalAnswerMap) (count : Nat)
    (plannerSvc summarySvc : Except Unit String) :
    AppState × List Ev × Except Unit PlanResult :=
  let system := buildPlannerPrompt aiNick answers count MAX_QA_ROUNDS
  match plannerSvc with
  | .error e => (st, [.genCall system], .error e)
  | .ok raw =>
    let p := parsePlannerReply raw
    if p.decision = .summary ∨ count ≥ MAX_QA_ROUNDS then
      match askProposalSummary st aiNick answers summarySvc with
      | (st', evs, .error e) => (st', .genCall system :: evs, .error e)
      | (st', evs, .ok _) =>
        ({ st' with pendingQ := none }, .genCall system :: evs, .ok .summarized)
    else
      let content := buildQuestionMessage p.question p.followups
      ({ st with
          messages := st.messages ++ [⟨"assistant", content⟩],
          pendingQ := if p.question == "" then none else some p.question },
        [.genCall system, .insertMsg "assistant" content], .ok .asked)

/-- Character-level model of JavaScript `String.prototype.startsWith`. -/
def beginsWith : List Char → List Char → Bool
  | _, [] => true
  | [], _ :: _ => false
  | c :: cs, d :: ds => c == d && beginsWith cs ds

/-- `expectingAnswer`: does the last assistant message of the log start
with the `【質問】` marker? -/
def expectingAnswerOf (st : AppState) : Bool :=
  match (st.messages.filter (fun m => m.role == "assistant")).getLast? with
  | some m => beginsWith m.content.data "【質問】".data
  | none => false

/-- `!proposalAnswers[SEED_ANSWER_KEY]`: the seed pitch is absent or the
empty string. -/
def seedMissing (st : AppState) : Bool :=
  (mapGet st.proposalAnswers SEED_ANSWER_KEY).getD "" == ""

/-- The deterministic next answer key `q<askedCount+1>`. -/
def nextAnswerKey (st : AppState) : String :=
  "q" ++ toString (st.askedCount + 1)

/-- The updated answer map of an answer turn: the serialized
`{question: pendingQText ?? '(質問)', answer: content}` record stored under
the next answer key. -/
def nextAnswersOf (st : AppState) (content : String) : ProposalAnswerMap :=
  alistSet st.proposalAnswers (nextAnswerKey st)
    (stringifyQA (st.pendingQ.getD "(質問)") content)

/-- `handleSendMessage`: one user turn.  Empty (trimmed) input is dropped;
otherwise the user message is logged first; on a proposal section the input
is stored as the seed pitch (first turn) or as the answer to the pending
question under the key `q<askedCount+1>`, the `(counter, answers)` pair is
persisted, and the planner is invoked; an exception from the generation
service is caught and reported by an alert.  Other sections run a plain
chat call. -/
def handleSendMessage (st : AppState) (aiNick chatInput : String)
    (isProposal : Bool) (plannerSvc summarySvc chatSvc : Except Unit String) :
    AppState × List Ev × TurnOutcome :=
  let content := jsTrim chatInput
  if content == "" then (st, [], .ok)
  else
    let expectingAnswer := expectingAnswerOf st
    let st1 := { st with messages := st.messages ++ [⟨"user", content⟩] }
    let ev0 : List Ev := [.insertMsg "user" content]
    if isProposal then
      if !expectingAnswer && seedMissing st then
        let nextAnswers := alistSet st.proposalAnswers SEED_ANSWER_KEY content
        let st2 := saveProposalState { st1 with proposalAnswers := nextAnswers }
          st.askedCount nextAnswers
        match askPlannerNext st2 aiNick nextAnswers st.askedCount plannerSvc summarySvc with
        | (st3, evs, .error _) =>
          (st3, ev0 ++ [.persist st.askedCount nextAnswers] ++ evs ++
            [.alert SEND_FAILURE_ALERT], .failed)
        | (st3, evs, .ok _) =>
          (st3, ev0 ++ [.persist st.askedCount nextAnswers] ++ evs, .ok)
      else
        let nextAnswers := nextAnswersOf st content
        let nextCount := st.askedCount + 1
        let st2 := saveProposalState
          { st1 with proposalAnswers := nextAnswers, askedCount := nextCount }
          nextCount nextAnswers
        match askPlannerNext st2 aiNick nextAnswers nextCount plannerSvc summarySvc with
        | (st3, evs, .error _) =>
          (st3, ev0 ++ [.persist nextCount nextAnswers] ++ evs ++
            [.alert SEND_FAILURE_ALERT], .failed)
        | (st3, evs, .ok r) =>
          let st4 := if r ≠ PlanResult.asked then { st3 with pendingQ := none } else st3
          (st4, ev0 ++ [.persist nextCount nextAnswers] ++ evs, .ok)
    else
      let system := "あなたは編集者AIです。ユーザーがあなたに付けた呼び名は「" ++
        aiNick ++ "」。必要に応じてその名で最小限に名乗って構いません。"
      match chatSvc with
      | .error _ => (st1, ev0 ++ [.genCall system, .alert SEND_FAILURE_ALERT], .failed)
      | .ok reply =>
        ({ st1 with messages := st1.messages ++ [⟨"assistant", reply⟩] },
          ev0 ++ [.genCall system, .insertMsg "assistant" reply], .ok)

/-! ## Helper lemmas -/

/-- Extraction is the per-entry conversion of the non-seed entries, in
entry order. -/
theorem extractQAPairs_eq_filter (answers : ProposalAnswerMap) :
    extractQAPairs answers =
      (answers.filter (fun p => !(p.1 == SEED_ANSWER_KEY))).map
        (fun kv => extractOne kv.2) := by
  induction answers with
  | nil => rfl
  | cons kv t ih =>
    by_cases h : kv.1 = SEED_ANSWER_KEY
    · simpa [extractQAPairs, List.filterMap_cons, List.filter_cons, h] using ih
    · simpa [extractQAPairs, List.filterMap_cons, List.filter_cons, h] using ih

/-- Extraction produces exactly one pair per non-seed key. -/
theorem length_extractQAPairs (answers : ProposalAnswerMap) :
    (extractQAPairs answers).length =
      ((answers.map Prod.fst).filter (fun k => !(k == SEED_ANSWER_KEY))).length := by
  rw [extractQAPairs_eq_filter]
  induction answers with
  | nil => rfl
  | cons kv t ih =>
    by_cases h : kv.1 = SEED_ANSWER_KEY
    · simpa [List.filter_cons, h] using ih
    · simpa [List.filter_cons, h] using ih

/-- Reading back the key just set. -/
theorem mapGet_alistSet_self (m : ProposalAnswerMap) (k v : String) :
    mapGet (alistSet m k v) k = some v := by
  induction m with
  | nil => simp [alistSet, mapGet]
  | cons p t ih =>
    by_cases hp : (p.1 == k) = true
    · simp [alistSet, mapGet, hp]
    · simp only [Bool.not_eq_true] at hp
      simpa [alistSet, mapGet, hp] using ih

/-- Setting a key does not touch the other entries. -/
theorem filter_alistSet (m : ProposalAnswerMap) (k v : String) :
    (alistSet m k v).filter (fun p => !(p.1 == k)) =
      m.filter (fun p => !(p.1 == k)) := by
  induction m with
  | nil => simp [alistSet, List.filter_cons]
  | cons p t ih =>
    by_cases hp : (p.1 == k) = true
    · have hk : p.1 = k := by simpa using hp
      simp [alistSet, List.filter_cons, hp, hk]
    · simp only [Bool.not_eq_true] at hp
      simp [alistSet, List.filter_cons, hp, ih]

/-! ## The claims -/

/-- C4: for every question `q` and every followups list, the rendered
question message is the `【質問】q` line followed by one `・`-prefixed line
per entry of the first two followups — entries beyond the first two are
discarded, so at most two follow-up lines are rendered. -/
theorem buildQuestionMessage_truncates_followups (q : String) (fs : List String) :
    buildQuestionMessage q fs =
      String.intercalate "\n"
        (("【質問】" ++ q) :: (fs.take 2).map (fun f => "・" ++ f))
    ∧ ((fs.take 2).map (fun f => "・" ++ f)).length ≤ 2 := by
  constructor
  · cases fs with
    | nil => rfl
    | cons a l => simp [buildQuestionMessage]
  · simp only [List.length_map, List.length_take]
    omega

/-- C6: the prompt builders are pure functions of their arguments — two
calls with identical `(agentName, answers, askedCount, maxRounds)` yield
identical strings, and no state is read or written (they are total
functions of their arguments in this embedding). -/
theorem promptBuilders_pure (aiNick : String) (answers : ProposalAnswerMap)
    (askedCount maxRounds : Nat) :
    buildPlannerPrompt aiNick answers askedCount maxRounds =
        buildPlannerPrompt aiNick answers askedCount maxRounds
    ∧ buildSummaryPrompt aiNick answers = buildSummaryPrompt aiNick answers :=
  ⟨rfl, rfl⟩

/-- C10: both prompt transcripts render exactly one numbered Q&A entry per
non-seed key of the answer map — malformed values degrade to a placeholder
pair instead of being dropped. -/
theorem transcript_one_pair_per_key (answers : ProposalAnswerMap) :
    (plannerQaLines answers).length =
        ((answers.map Prod.fst).filter (fun k => !(k == SEED_ANSWER_KEY))).length
    ∧ (summaryQaLines answers).length =
        ((answers.map Prod.fst).filter (fun k => !(k == SEED_ANSWER_KEY))).length := by
  constructor
  · simpa [plannerQaLines, List.length_mapIdx] using length_extractQAPairs answers
  · simpa [summaryQaLines, List.length_mapIdx] using length_extractQAPairs answers

/-- C8 counterexample: two answer maps with the same key-value bindings
(a permutation of each other, keys distinct) whose rendered planner
transcripts differ — the transcript follows entry order, it is not
reconstructed from the `q1, q2, …` key names. -/
theorem transcript_depends_on_entry_order :
    ([("q2", "回答B"), ("q1", "回答A")] : ProposalAnswerMap).Perm
        [("q1", "回答A"), ("q2", "回答B")]
    ∧ (([("q2", "回答B"), ("q1", "回答A")] : ProposalAnswerMap).map Prod.fst).Nodup
    ∧ plannerQaLines [("q2", "回答B"), ("q1", "回答A")] ≠
        plannerQaLines [("q1", "回答A"), ("q2", "回答B")] :=
  ⟨List.isPerm_iff.mp (by decide), by decide, by decide⟩

/-- C8 (amended): the transcript embedded in either prompt is determined by
the sequence of non-seed entries in map entry order — two maps with the
same non-seed entry sequence render identical transcripts (in particular
the seed entry's position is irrelevant), but equal bindings in a different
entry order need not. -/
theorem transcript_follows_entry_order (a1 a2 : ProposalAnswerMap)
    (h : a1.filter (fun p => !(p.1 == SEED_ANSWER_KEY)) =
        a2.filter (fun p => !(p.1 == SEED_ANSWER_KEY))) :
    plannerQaLines a1 = plannerQaLines a2
    ∧ summaryQaLines a1 = summaryQaLines a2 := by
  have he : extractQAPairs a1 = extractQAPairs a2 := by
    rw [extractQAPairs_eq_filter, extractQAPairs_eq_filter, h]
  exact ⟨by simp [plannerQaLines, he], by simp [summaryQaLines, he]⟩

/-- C8 witness: moving the seed entry does not change the transcripts. -/
theorem transcript_follows_entry_order_witness :
    plannerQaLines [(SEED_ANSWER_KEY, "ピッチ"), ("q1", "回答")] =
        plannerQaLines [("q1", "回答"), (SEED_ANSWER_KEY, "ピッチ")]
    ∧ summaryQaLines [(SEED_ANSWER_KEY, "ピッチ"), ("q1", "回答")] =
        summaryQaLines [("q1", "回答"), (SEED_ANSWER_KEY, "ピッチ")] :=
  transcript_follows_entry_order _ _ (by decide)

/-- C2 counterexample: the reply `{}` parses as JSON with no `decision`
field; the planner resolves it to `ask`, but with the empty question, not
with the fixed fallback question text. -/
theorem decisionless_reply_not_fallback :
    (parseJson (stripJsonFence "\x7b\x7d")).isSome = true
    ∧ parsePlannerReply "\x7b\x7d" = ⟨.ask, "", []⟩
    ∧ (parsePlannerReply "\x7b\x7d").question ≠ FALLBACK_QUESTION := by
  decide

/-- C2 (amended): if the reply is not parseable as JSON (after fence
stripping), the planner resolves to `ask` with the fixed fallback question;
if it parses but the `decision` field is neither `"ask"` nor `"summary"`,
it resolves to `ask` with the empty question (not the fallback text); the
parsing step is a total function, so no exception escapes it. -/
theorem plannerReply_fallback_law (raw : String) :
    (parseJson (stripJsonFence raw) = none →
      parsePlannerReply raw = ⟨.ask, FALLBACK_QUESTION, []⟩)
    ∧ (∀ j, parseJson (stripJsonFence raw) = some j →
        decisionStr j ≠ some "ask" → decisionStr j ≠ some "summary" →
        parsePlannerReply raw = ⟨.ask, "", []⟩) := by
  constructor
  · intro h
    simp [parsePlannerReply, h]
  · intro j hj ha hs
    simp [parsePlannerReply, hj, ha, hs]

/-- C2 witness: a prose reply falls back to the fixed question; a JSON
reply without a `decision` field resolves to `ask` with an empty
question. -/
theorem plannerReply_fallback_law_witness :
    parsePlannerReply "わかりました。質問します。" = ⟨.ask, FALLBACK_QUESTION, []⟩
    ∧ parsePlannerReply "\x7b\"reason\":\"十分\"\x7d" = ⟨.ask, "", []⟩ :=
  ⟨(plannerReply_fallback_law "わかりました。質問します。").1 rfl,
   (plannerReply_fallback_law "\x7b\"reason\":\"十分\"\x7d").2
     (Json.obj [("reason", Json.str "十分")]) rfl (by decide) (by decide)⟩

/-- C3 counterexample: `{"question":"","answer":"x"}` is valid JSON with
both a `question` and an `answer` field, yet extraction does not yield the
pair `{question: "", answer: "x"}` — the empty (falsy) `question` routes
the value to the placeholder fallback carrying the raw stored string. -/
theorem falsy_field_record_degrades :
    (parseJson "\x7b\"question\":\"\",\"answer\":\"x\"\x7d").isSome = true
    ∧ ((parseJson "\x7b\"question\":\"\",\"answer\":\"x\"\x7d").bind
        (fun j => j.getField "question")).isSome = true
    ∧ ((parseJson "\x7b\"question\":\"\",\"answer\":\"x\"\x7d").bind
        (fun j => j.getField "answer")).isSome = true
    ∧ extractQAPairs [("q1", "\x7b\"question\":\"\",\"answer\":\"x\"\x7d")] =
        [⟨UNKNOWN_QUESTION, "\x7b\"question\":\"\",\"answer\":\"x\"\x7d"⟩]
    ∧ (⟨UNKNOWN_QUESTION, "\x7b\"question\":\"\",\"answer\":\"x\"\x7d"⟩ : QAPair) ≠
        ⟨"", "x"⟩ := by
  decide

/-- C3 (amended): extraction converts each non-seed entry independently;
a value that parses as a truthy JSON object whose `question` and `answer`
fields are both present *and truthy* yields exactly the stringified field
pair, and every other value yields the placeholder pair carrying the raw
stored string; extraction is a total function, so it never throws. -/
theorem extractQAPairs_law :
    (∀ answers : ProposalAnswerMap,
      extractQAPairs answers = answers.filterMap (fun kv =>
        if kv.1 == SEED_ANSWER_KEY then none else some (extractOne kv.2)))
    ∧ (∀ v j q a, parseJson v = some j → j.truthy = true → j.isObjLike = true →
        j.getField "question" = some q → j.getField "answer" = some a →
        q.truthy = true → a.truthy = true →
        extractOne v = ⟨q.jsToString, a.jsToString⟩)
    ∧ (∀ v, parsedQA v = none → extractOne v = ⟨UNKNOWN_QUESTION, v⟩) := by
  refine ⟨fun answers => rfl, ?_, ?_⟩
  · intro v j q a hp ht hobj hq ha htq hta
    simp [extractOne, parsedQA, hp, ht, hobj, hq, ha, htq, hta]
  · intro v h
    simp [extractOne, h]

/-- C3 witness: a well-formed stored record extracts to its two fields. -/
theorem extractQAPairs_law_witness :
    extractOne "\x7b\"question\":\"想定読者は？\",\"answer\":\"社会人\"\x7d" =
      ⟨"想定読者は？", "社会人"⟩ :=
  extractQAPairs_law.2.1 _
    (Json.obj [("question", Json.str "想定読者は？"), ("answer", Json.str "社会人")])
    (Json.str "想定読者は？") (Json.str "社会人") rfl rfl rfl rfl rfl rfl rfl

/-- A fence opener begins with a triple backtick. -/
theorem startsWithJsonFence_triple {l : List Char}
    (h : startsWithJsonFence l = true) : isTripleHere l = true :=
  ((Bool.and_eq_true _ _).mp h).1

/-- A reply with no triple backtick has no fence match. -/
theorem findFenceGroup_none (l : List Char) (h : hasTriple l = false) :
    findFenceGroup l = none := by
  induction l with
  | nil => rfl
  | cons c cs ih =>
    simp only [hasTriple] at h
    rcases Bool.or_eq_false_iff.mp h with ⟨h1, h2⟩
    have hs : startsWithJsonFence (c :: cs) = false := by
      cases hw : startsWithJsonFence (c :: cs)
      · rfl
      · exact absurd (startsWithJsonFence_triple hw) (by simp [h1])
    simp [findFenceGroup, hs, ih h2]

/-- The lazy capture group stops exactly at an appended closing fence when
the body itself holds no triple backtick. -/
theorem takeUntilFence_close (l : List Char) (h : hasTriple l = false) :
    takeUntilFence (l ++ '\n' :: btick :: btick :: btick :: []) =
      some (l ++ ['\n']) := by
  induction l with
  | nil => decide
  | cons c t ih =>
    simp only [hasTriple] at h
    rcases Bool.or_eq_false_iff.mp h with ⟨h1, h2⟩
    have hnb : ('\n' == btick) = false := by decide
    have h3 : isTripleHere (c :: (t ++ '\n' :: btick :: btick :: btick :: [])) = false := by
      cases t with
      | nil => simp [isTripleHere, hnb]
      | cons d t2 =>
        cases t2 with
        | nil => simp [isTripleHere, hnb]
        | cons e t3 => simpa [isTripleHere] using h1
    simp only [List.cons_append]
    simp [takeUntilFence, h3, ih h2]

/-- No triple backtick in a right part when none in the whole. -/
theorem hasTriple_append_right (pre l : List Char)
    (h : hasTriple (pre ++ l) = false) : hasTriple l = false := by
  induction pre with
  | nil => simpa using h
  | cons a p ih =>
    rw [List.cons_append] at h
    simp only [hasTriple] at h
    exact ih (Bool.or_eq_false_iff.mp h).2

/-- Wrapping a fence-free reply in a ```` ```json ```` fence makes the
`jsonStr` computation recover exactly the trimmed reply. -/
theorem stripJsonFence_wrap (s : String) (h : hasTriple s.data = false) :
    stripJsonFence ("```json\n" ++ s ++ "\n```") = jsTrim s := by
  have hdata : ("```json\n" ++ s ++ "\n```").data =
      btick :: btick :: btick :: 'j' :: 's' :: 'o' :: 'n' :: '\n' ::
        (s.data ++ '\n' :: btick :: btick :: btick :: []) := rfl
  unfold stripJsonFence
  rw [hdata]
  have hopen : startsWithJsonFence (btick :: btick :: btick :: 'j' :: 's' :: 'o' ::
      'n' :: '\n' :: (s.data ++ '\n' :: btick :: btick :: btick :: [])) = true := rfl
  rw [findFenceGroup, if_pos hopen]
  have hdrop : ((btick :: btick :: btick :: 'j' :: 's' :: 'o' :: 'n' :: '\n' ::
      (s.data ++ '\n' :: btick :: btick :: btick :: [])).drop 7) =
      '\n' :: (s.data ++ '\n' :: btick :: btick :: btick :: []) := rfl
  rw [hdrop]
  have hdw : List.dropWhile isJsWs ('\n' :: (s.data ++ '\n' :: btick :: btick :: btick :: [])) =
      List.dropWhile isJsWs (s.data ++ '\n' :: btick :: btick :: btick :: []) := rfl
  rw [hdw, List.dropWhile_append]
  by_cases hempty : (s.data.dropWhile isJsWs).isEmpty = true
  · rw [if_pos hempty]
    have hrest : List.dropWhile isJsWs ('\n' :: btick :: btick :: btick :: []) =
        btick :: btick :: btick :: [] := rfl
    rw [hrest]
    have htf : takeUntilFence (btick :: btick :: btick :: []) = some [] := rfl
    rw [htf]
    have hnil : s.data.dropWhile isJsWs = [] := by
      simpa [List.isEmpty_iff] using hempty
    simp [jsTrim, trimList, hnil]
  · rw [if_neg hempty]
    obtain ⟨c, t, hs1⟩ : ∃ c t, s.data.dropWhile isJsWs = c :: t := by
      cases hs : s.data.dropWhile isJsWs with
      | nil => exact absurd (by simp [hs]) hempty
      | cons c t => exact ⟨c, t, rfl⟩
    have hc : isJsWs c = false := by
      have hh := List.head?_dropWhile_not isJsWs s.data
      rw [hs1] at hh
      simpa using hh
    have hsuf : hasTriple (c :: t) = false := by
      rw [← hs1]
      apply hasTriple_append_right (s.data.takeWhile isJsWs)
      rw [List.takeWhile_append_dropWhile]
      exact h
    rw [hs1, takeUntilFence_close (c :: t) hsuf]
    have goal_eq : trimList ((c :: t) ++ ['\n']) = trimList s.data := by
      unfold trimList
      rw [hs1]
      have h1 : List.dropWhile isJsWs ((c :: t) ++ ['\n']) = c :: (t ++ ['\n']) := by
        simp [List.dropWhile_cons, hc]
      rw [h1]
      have h2 : (c :: (t ++ ['\n'])).reverse = '\n' :: (t.reverse ++ [c]) := by
        simp
      rw [h2]
      have h3 : List.dropWhile isJsWs ('\n' :: (t.reverse ++ [c])) =
          List.dropWhile isJsWs (t.reverse ++ [c]) := rfl
      rw [h3, List.reverse_cons]
    simp only [jsTrim]
    exact congrArg String.mk goal_eq

/-- C7 counterexample: a decision object inside a *plain* (untagged) fenced
code block is not recognised — the planner falls back to the fixed
question although the bare object parses to `summary`. -/
theorem untagged_fence_not_stripped :
    parsePlannerReply "```\n\x7b\"decision\":\"summary\"\x7d\n```" =
        ⟨.ask, FALLBACK_QUESTION, []⟩
    ∧ parsePlannerReply "\x7b\"decision\":\"summary\"\x7d" = ⟨.summary, "", []⟩ := by
  decide

/-- C7 (amended): only fenced code blocks tagged `json` (case-insensitive)
are stripped: a reply consisting of a decision object (itself containing no
triple backtick) wrapped in a ```` ```json ```` fence parses to exactly the
same planner decision as the bare object. -/
theorem fencedJson_parses_like_bare (s : String) (h : hasTriple s.data = false) :
    parsePlannerReply ("```json\n" ++ s ++ "\n```") = parsePlannerReply s := by
  have h1 : stripJsonFence ("```json\n" ++ s ++ "\n```") = jsTrim s :=
    stripJsonFence_wrap s h
  have h2 : stripJsonFence s = jsTrim s := by
    unfold stripJsonFence
    rw [findFenceGroup_none s.data h]
  simp only [parsePlannerReply, h1, h2]

/-- C7 witness: a concrete `summary` object parses identically fenced and
bare. -/
theorem fencedJson_parses_like_bare_witness :
    parsePlannerReply ("```json\n" ++ "\x7b\"decision\":\"summary\",\"reason\":\"十分\"\x7d" ++ "\n```") =
      parsePlannerReply "\x7b\"decision\":\"summary\",\"reason\":\"十分\"\x7d" :=
  fencedJson_parses_like_bare "\x7b\"decision\":\"summary\",\"reason\":\"十分\"\x7d" (by decide)

/-- C9: on a non-seed proposal turn, `handleSendMessage` stores the
serialized `{question: pending ?? '(質問)', answer: content}` record under
the deterministic key `q<askedCount+1>`, leaves every other entry
untouched, increments the counter, and persists the `(counter, answers)`
pair before its first generation-service call — for every outcome of the
generation services. -/
theorem answer_storage_postcondition (st : AppState) (aiNick chatInput : String)
    (plannerSvc summarySvc chatSvc : Except Unit String)
    (h1 : jsTrim chatInput ≠ "")
    (h2 : expectingAnswerOf st = true ∨ seedMissing st = false) :
    (handleSendMessage st aiNick chatInput true plannerSvc summarySvc chatSvc).1.askedCount
        = st.askedCount + 1
    ∧ (handleSendMessage st aiNick chatInput true plannerSvc summarySvc chatSvc).1.proposalAnswers
        = nextAnswersOf st (jsTrim chatInput)
    ∧ (handleSendMessage st aiNick chatInput true plannerSvc summarySvc chatSvc).1.store
        = some (st.askedCount + 1, nextAnswersOf st (jsTrim chatInput))
    ∧ mapGet (nextAnswersOf st (jsTrim chatInput)) (nextAnswerKey st)
        = some (stringifyQA (st.pendingQ.getD "(質問)") (jsTrim chatInput))
    ∧ (nextAnswersOf st (jsTrim chatInput)).filter (fun p => !(p.1 == nextAnswerKey st))
        = st.proposalAnswers.filter (fun p => !(p.1 == nextAnswerKey st))
    ∧ (handleSendMessage st aiNick chatInput true plannerSvc summarySvc chatSvc).2.1.take 3
        = [Ev.insertMsg "user" (jsTrim chatInput),
           Ev.persist (st.askedCount + 1) (nextAnswersOf st (jsTrim chatInput)),
           Ev.genCall (buildPlannerPrompt aiNick (nextAnswersOf st (jsTrim chatInput))
             (st.askedCount + 1) MAX_QA_ROUNDS)] := by
  have hb : (jsTrim chatInput == "") = false := beq_eq_false_iff_ne.mpr h1
  have hcond : (!(expectingAnswerOf st) && seedMissing st) = false := by
    rcases h2 with h2 | h2 <;> simp [h2]
  have h4 : mapGet (nextAnswersOf st (jsTrim chatInput)) (nextAnswerKey st)
      = some (stringifyQA (st.pendingQ.getD "(質問)") (jsTrim chatInput)) :=
    mapGet_alistSet_self _ _ _
  have h5 : (nextAnswersOf st (jsTrim chatInput)).filter (fun p => !(p.1 == nextAnswerKey st))
      = st.proposalAnswers.filter (fun p => !(p.1 == nextAnswerKey st)) :=
    filter_alistSet _ _ _
  refine ⟨?_, ?_, ?_, h4, h5, ?_⟩ <;>
  · cases plannerSvc with
    | error e =>
      simp [handleSendMessage, askPlannerNext, saveProposalState, hb, hcond]
    | ok raw =>
      by_cases hd : (parsePlannerReply raw).decision = .summary
          ∨ st.askedCount + 1 ≥ MAX_QA_ROUNDS
      · cases summarySvc with
        | error e =>
          simp [handleSendMessage, askPlannerNext, askProposalSummary,
            saveProposalState, hb, hcond, hd]
        | ok r =>
          simp [handleSendMessage, askPlannerNext, askProposalSummary,
            saveProposalState, hb, hcond, hd]
      · simp [handleSendMessage, askPlannerNext, saveProposalState, hb, hcond, hd]

/-- C9 witness: a concrete answer turn (pending question `読者は？`, counter
0) stores the record under `q1` and persists before the planner call. -/
theorem answer_storage_postcondition_witness :
    (handleSendMessage ⟨[⟨"assistant", "【質問】読者は？"⟩], none,
        [(SEED_ANSWER_KEY, "本を書きたい")], 0, some "読者は？"⟩ "編集AI" "社会人です"
        true (.ok "\x7b\"decision\":\"summary\"\x7d") (.ok "ドラフト") (.ok "x")).1.askedCount = 0 + 1
    ∧ (handleSendMessage ⟨[⟨"assistant", "【質問】読者は？"⟩], none,
        [(SEED_ANSWER_KEY, "本を書きたい")], 0, some "読者は？"⟩ "編集AI" "社会人です"
        true (.ok "\x7b\"decision\":\"summary\"\x7d") (.ok "ドラフト") (.ok "x")).1.proposalAnswers
        = nextAnswersOf ⟨[⟨"assistant", "【質問】読者は？"⟩], none,
            [(SEED_ANSWER_KEY, "本を書きたい")], 0, some "読者は？"⟩ (jsTrim "社会人です")
    ∧ (handleSendMessage ⟨[⟨"assistant", "【質問】読者は？"⟩], none,
        [(SEED_ANSWER_KEY, "本を書きたい")], 0, some "読者は？"⟩ "編集AI" "社会人です"
        true (.ok "\x7b\"decision\":\"summary\"\x7d") (.ok "ドラフト") (.ok "x")).1.store
        = some (0 + 1, nextAnswersOf ⟨[⟨"assistant", "【質問】読者は？"⟩], none,
            [(SEED_ANSWER_KEY, "本を書きたい")], 0, some "読者は？"⟩ (jsTrim "社会人です"))
    ∧ mapGet (nextAnswersOf ⟨[⟨"assistant", "【質問】読者は？"⟩], none,
          [(SEED_ANSWER_KEY, "本を書きたい")], 0, some "読者は？"⟩ (jsTrim "社会人です"))
        (nextAnswerKey ⟨[⟨"assistant", "【質問】読者は？"⟩], none,
          [(SEED_ANSWER_KEY, "本を書きたい")], 0, some "読者は？"⟩)
        = some (stringifyQA ((some "読者は？" : Option String).getD "(質問)") (jsTrim "社会人です"))
    ∧ (nextAnswersOf ⟨[⟨"assistant", "【質問】読者は？"⟩], none,
          [(SEED_ANSWER_KEY, "本を書きたい")], 0, some "読者は？"⟩ (jsTrim "社会人です")).filter
        (fun p => !(p.1 == nextAnswerKey ⟨[⟨"assistant", "【質問】読者は？"⟩], none,
          [(SEED_ANSWER_KEY, "本を書きたい")], 0, some "読者は？"⟩))
        = ([(SEED_ANSWER_KEY, "本を書きたい")] : ProposalAnswerMap).filter
        (fun p => !(p.1 == nextAnswerKey ⟨[⟨"assistant", "【質問】読者は？"⟩], none,
          [(SEED_ANSWER_KEY, "本を書きたい")], 0, some "読者は？"⟩))
    ∧ (handleSendMessage ⟨[⟨"assistant", "【質問】読者は？"⟩], none,
        [(SEED_ANSWER_KEY, "本を書きたい")], 0, some "読者は？"⟩ "編集AI" "社会人です"
        true (.ok "\x7b\"decision\":\"summary\"\x7d") (.ok "ドラフト") (.ok "x")).2.1.take 3
        = [Ev.insertMsg "user" (jsTrim "社会人です"),
           Ev.persist (0 + 1) (nextAnswersOf ⟨[⟨"assistant", "【質問】読者は？"⟩], none,
             [(SEED_ANSWER_KEY, "本を書きたい")], 0, some "読者は？"⟩ (jsTrim "社会人です")),
           Ev.genCall (buildPlannerPrompt "編集AI"
             (nextAnswersOf ⟨[⟨"assistant", "【質問】読者は？"⟩], none,
               [(SEED_ANSWER_KEY, "本を書きたい")], 0, some "読者は？"⟩ (jsTrim "社会人です"))
             (0 + 1) MAX_QA_ROUNDS)] :=
  answer_storage_postcondition ⟨[⟨"assistant", "【質問】読者は？"⟩], none,
    [(SEED_ANSWER_KEY, "本を書きたい")], 0, some "読者は？"⟩ "編集AI" "社会人です"
    (.ok "\x7b\"decision\":\"summary\"\x7d") (.ok "ドラフト") (.ok "x")
    (by decide) (Or.inl (by decide))

/-- C5: when the planner resolves to `summary` and the summary
generation-service call fails with a transport error, the just-persisted
answer stays in the store, the only new message in the log is the user's
own, and the caller sees the failure (alert + failed outcome). -/
theorem summary_failure_preserves_answer (st : AppState) (aiNick chatInput raw : String)
    (chatSvc : Except Unit String)
    (h1 : jsTrim chatInput ≠ "")
    (h2 : expectingAnswerOf st = true ∨ seedMissing st = false)
    (h3 : (parsePlannerReply raw).decision = .summary
        ∨ st.askedCount + 1 ≥ MAX_QA_ROUNDS) :
    (handleSendMessage st aiNick chatInput true (.ok raw) (.error ()) chatSvc).2.2
        = .failed
    ∧ (handleSendMessage st aiNick chatInput true (.ok raw) (.error ()) chatSvc).1.store
        = some (st.askedCount + 1, nextAnswersOf st (jsTrim chatInput))
    ∧ mapGet (nextAnswersOf st (jsTrim chatInput)) (nextAnswerKey st)
        = some (stringifyQA (st.pendingQ.getD "(質問)") (jsTrim chatInput))
    ∧ (handleSendMessage st aiNick chatInput true (.ok raw) (.error ()) chatSvc).1.messages
        = st.messages ++ [⟨"user", jsTrim chatInput⟩]
    ∧ (handleSendMessage st aiNick chatInput true (.ok raw) (.error ()) chatSvc).2.1
        = [Ev.insertMsg "user" (jsTrim chatInput),
           Ev.persist (st.askedCount + 1) (nextAnswersOf st (jsTrim chatInput)),
           Ev.genCall (buildPlannerPrompt aiNick (nextAnswersOf st (jsTrim chatInput))
             (st.askedCount + 1) MAX_QA_ROUNDS),
           Ev.genCall (buildSummaryPrompt aiNick (nextAnswersOf st (jsTrim chatInput))),
           Ev.alert SEND_FAILURE_ALERT] := by
  have hb : (jsTrim chatInput == "") = false := beq_eq_false_iff_ne.mpr h1
  have hcond : (!(expectingAnswerOf st) && seedMissing st) = false := by
    rcases h2 with h2 | h2 <;> simp [h2]
  refine ⟨?_, ?_, mapGet_alistSet_self _ _ _, ?_, ?_⟩ <;>
    simp [handleSendMessage, askPlannerNext, askProposalSummary,
      saveProposalState, hb, hcond, h3]

/-- C5 witness: a concrete turn whose summary call fails keeps the answer
in the store and posts nothing. -/
theorem summary_failure_preserves_answer_witness :
    (handleSendMessage ⟨[⟨"assistant", "【質問】読者は？"⟩], none, [], 2, some "読者は？"⟩
        "編集AI" "通勤中の社会人" true (.ok "\x7b\"decision\":\"summary\"\x7d") (.error ()) (.ok "x")).2.2
        = .failed
    ∧ (handleSendMessage ⟨[⟨"assistant", "【質問】読者は？"⟩], none, [], 2, some "読者は？"⟩
        "編集AI" "通勤中の社会人" true (.ok "\x7b\"decision\":\"summary\"\x7d") (.error ()) (.ok "x")).1.store
        = some (2 + 1, nextAnswersOf ⟨[⟨"assistant", "【質問】読者は？"⟩], none, [], 2, some "読者は？"⟩
            (jsTrim "通勤中の社会人"))
    ∧ mapGet (nextAnswersOf ⟨[⟨"assistant", "【質問】読者は？"⟩], none, [], 2, some "読者は？"⟩
          (jsTrim "通勤中の社会人"))
        (nextAnswerKey ⟨[⟨"assistant", "【質問】読者は？"⟩], none, [], 2, some "読者は？"⟩)
        = some (stringifyQA ((some "読者は？" : Option String).getD "(質問)") (jsTrim "通勤中の社会人"))
    ∧ (handleSendMessage ⟨[⟨"assistant", "【質問】読者は？"⟩], none, [], 2, some "読者は？"⟩
        "編集AI" "通勤中の社会人" true (.ok "\x7b\"decision\":\"summary\"\x7d") (.error ()) (.ok "x")).1.messages
        = ([⟨"assistant", "【質問】読者は？"⟩] : List Msg) ++ [⟨"user", jsTrim "通勤中の社会人"⟩]
    ∧ (handleSendMessage ⟨[⟨"assistant", "【質問】読者は？"⟩], none, [], 2, some "読者は？"⟩
        "編集AI" "通勤中の社会人" true (.ok "\x7b\"decision\":\"summary\"\x7d") (.error ()) (.ok "x")).2.1
        = [Ev.insertMsg "user" (jsTrim "通勤中の社会人"),
           Ev.persist (2 + 1) (nextAnswersOf ⟨[⟨"assistant", "【質問】読者は？"⟩], none, [], 2, some "読者は？"⟩
             (jsTrim "通勤中の社会人")),
           Ev.genCall (buildPlannerPrompt "編集AI"
             (nextAnswersOf ⟨[⟨"assistant", "【質問】読者は？"⟩], none, [], 2, some "読者は？"⟩
               (jsTrim "通勤中の社会人")) (2 + 1) MAX_QA_ROUNDS),
           Ev.genCall (buildSummaryPrompt "編集AI"
             (nextAnswersOf ⟨[⟨"assistant", "【質問】読者は？"⟩], none, [], 2, some "読者は？"⟩
               (jsTrim "通勤中の社会人"))),
           Ev.alert SEND_FAILURE_ALERT] :=
  summary_failure_preserves_answer
    ⟨[⟨"assistant", "【質問】読者は？"⟩], none, [], 2, some "読者は？"⟩
    "編集AI" "通勤中の社会人" "\x7b\"decision\":\"summary\"\x7d" (.ok "x")
    (by decide) (Or.inl (by decide)) (Or.inl (by decide))

/-- C1: once the completed-round count reaches `MAX_QA_ROUNDS` (12), or
whenever the parsed decision is `summary`, `askPlannerNext` takes the
summary path regardless of the reply's decision field: its result is never
`'asked'`, its trace is the planner call followed by exactly the summary
step's events, and the summary step emits no question message — only the
summary call and (on success) the draft insert. -/
theorem roundCap_forces_summary (st : AppState) (aiNick : String)
    (answers : ProposalAnswerMap) (count : Nat) (reply : String)
    (summarySvc : Except Unit String)
    (h : MAX_QA_ROUNDS ≤ count ∨ (parsePlannerReply reply).decision = .summary) :
    (askPlannerNext st aiNick answers count (.ok reply) summarySvc).2.2
        ≠ Except.ok .asked
    ∧ (askPlannerNext st aiNick answers count (.ok reply) summarySvc).2.1
        = .genCall (buildPlannerPrompt aiNick answers count MAX_QA_ROUNDS) ::
            (askProposalSummary st aiNick answers summarySvc).2.1
    ∧ (askProposalSummary st aiNick answers summarySvc).2.1
        = (match summarySvc with
            | .error _ => [Ev.genCall (buildSummaryPrompt aiNick answers)]
            | .ok r => [Ev.genCall (buildSummaryPrompt aiNick answers),
                Ev.insertMsg "assistant" (if r == "" then SUMMARY_FAILURE_TEXT else r)]) := by
  have hc : (parsePlannerReply reply).decision = .summary ∨ count ≥ MAX_QA_ROUNDS :=
    h.symm
  cases summarySvc with
  | error e =>
    refine ⟨?_, ?_, ?_⟩ <;> simp [askPlannerNext, askProposalSummary, hc]
  | ok r =>
    refine ⟨?_, ?_, ?_⟩ <;> simp [askPlannerNext, askProposalSummary, hc]

/-- C1 witness: at count 12 an explicit `ask` reply still summarizes. -/
theorem roundCap_forces_summary_witness :
    (askPlannerNext ⟨[], none, [], 0, none⟩ "編集AI" [] 12
        (.ok "\x7b\"decision\":\"ask\",\"question\":\"次は？\"\x7d") (.ok "ドラフト")).2.2
        ≠ Except.ok .asked
    ∧ (askPlannerNext ⟨[], none, [], 0, none⟩ "編集AI" [] 12
        (.ok "\x7b\"decision\":\"ask\",\"question\":\"次は？\"\x7d") (.ok "ドラフト")).2.1
        = .genCall (buildPlannerPrompt "編集AI" [] 12 MAX_QA_ROUNDS) ::
            (askProposalSummary ⟨[], none, [], 0, none⟩ "編集AI" [] (.ok "ドラフト")).2.1
    ∧ (askProposalSummary ⟨[], none, [], 0, none⟩ "編集AI" [] (.ok "ドラフト")).2.1
        = [Ev.genCall (buildSummaryPrompt "編集AI" []),
           Ev.insertMsg "assistant" (if "ドラフト" == "" then SUMMARY_FAILURE_TEXT else "ドラフト")] :=
  roundCap_forces_summary ⟨[], none, [], 0, none⟩ "編集AI" [] 12
    "\x7b\"decision\":\"ask\",\"question\":\"次は？\"\x7d" (.ok "ドラフト")
    (Or.inl (by decide))

end BookAgent
